import Mathlib

/-!
Shallow embedding of the xsuaa-better-admin authentication core:
the SSO callback route (`src/app/api/auth/xsuaa/route.ts`, given as
`src/unnamed/part_002`), the session resolution endpoint (`/api/me`,
`src/unnamed/part_000`), and the edge middleware (session gate, in
`src/steps.md`).

Conventions of the embedding:
* Timestamps are `Int` milliseconds since the epoch (`Date.now()`).
* JavaScript `a || b` on strings is modelled by `jsOr` with the JS
  truthiness rule (absent and `""` are falsy); on numbers by `jsOrNum`
  (absent and `0` are falsy).
* A JavaScript template literal interpolating a possibly-undefined
  value renders `undefined` as the string "undefined"; `jsStr` models
  this rendering.
* Randomly generated identifiers (`generateId`) and the request clock
  are passed in as explicit `FreshParams`, since they are inputs drawn
  from outside the store.
* The database is the record `Store` of three tables as lists of rows;
  `SELECT ... LIMIT 1` becomes `List.find?`, `INSERT` appends, and
  `UPDATE ... WHERE id = x` maps over the rows.  The drizzle schema has
  no on-update hooks, so an update writes exactly the listed columns.
-/

namespace XsuaaAdmin

/-- JS truthiness for an optional string: `undefined`/`null` and the
empty string are falsy. -/
def jsTruthy : Option String → Bool
  | none => false
  | some s => s ≠ ""

/-- JS `a || b` on optional strings (the result may still be absent). -/
def jsOr (a b : Option String) : Option String :=
  if jsTruthy a then a else b

/-- Rendering of a possibly-undefined value inside a JS template
literal: `undefined` prints as "undefined". -/
def jsStr : Option String → String
  | none => "undefined"
  | some s => s

/-- JS `a || b` on an optional number: absent and `0` are falsy. -/
def jsOrNum (a : Option Int) (b : Int) : Int :=
  match a with
  | none => b
  | some n => if n ≠ 0 then n else b

/-- Does the character list begin with the given list?  (Executable
model of JS `String.startsWith` on the underlying characters.) -/
def leadsList : List Char → List Char → Bool
  | _, [] => true
  | [], _ :: _ => false
  | c :: cs, d :: ds => c = d && leadsList cs ds

/-- JS `s.startsWith(pre)`. -/
def strLeads (s pre : String) : Bool :=
  leadsList s.data pre.data

/-- JS `s.includes(c)` for a single character. -/
def strHasChar (s : String) (c : Char) : Bool :=
  s.data.any (fun d => d = c)

/-- Characters before the first occurrence of `d`. -/
def takeUntilChar : List Char → Char → List Char
  | [], _ => []
  | c :: cs, d => if c = d then [] else c :: takeUntilChar cs d

/-- ASCII whitespace (the characters relevant to the names built
here). -/
def wsChar (c : Char) : Bool :=
  c = ' ' || c = '\t' || c = '\n' || c = '\r'

/-- JS `s.trim()`: strip whitespace from both ends. -/
def strTrim (s : String) : String :=
  ⟨((s.data.dropWhile wsChar).reverse.dropWhile wsChar).reverse⟩

/-- Row of the `users` table (drizzle schema in `src/steps.md`). -/
structure User where
  id : String
  email : String
  name : String
  emailVerified : Bool
  xsuaaSubject : Option String
  image : Option String
  createdAt : Int
  updatedAt : Int
  deriving Repr, DecidableEq

/-- Row of the `sessions` table. -/
structure Session where
  id : String
  userId : String
  token : String
  expiresAt : Int
  ipAddress : Option String
  userAgent : Option String
  createdAt : Int
  updatedAt : Int
  deriving Repr, DecidableEq

/-- Row of the `accounts` table (linked external accounts). -/
structure Account where
  id : String
  userId : String
  accountId : String
  providerId : String
  accessToken : Option String
  refreshToken : Option String
  accessTokenExpiresAt : Option Int
  createdAt : Int
  updatedAt : Int
  deriving Repr, DecidableEq

/-- The relational store: the three tables the SSO core touches. -/
structure Store where
  users : List User
  accounts : List Account
  sessions : List Session
  deriving Repr, DecidableEq

/-- Decoded id-token claims payload (`payload` in the callback route).
Every field is optional: the provider may omit any of them. -/
structure Claims where
  sub : Option String
  user_id : Option String
  email : Option String
  given_name : Option String
  family_name : Option String
  user_name : Option String
  deriving Repr, DecidableEq

/-- Token-endpoint response body fields the route reads. -/
structure Tokens where
  access_token : Option String
  refresh_token : Option String
  expires_in : Option Int
  deriving Repr, DecidableEq

/-- `payload.sub || payload.user_id` (line 77 of the callback route). -/
def deriveSubject (p : Claims) : Option String :=
  jsOr p.sub p.user_id

/-- `payload.email || `${xsuaaSubject}@sap.xsuaa`` (line 78). -/
def deriveEmail (p : Claims) : String :=
  if jsTruthy p.email then p.email.getD ""
  else jsStr (deriveSubject p) ++ "@sap.xsuaa"

/-- `email.split('@')[0]`: the characters before the first `@`. -/
def localPart (e : String) : String :=
  ⟨takeUntilChar e.data '@'⟩

/-- `payload.given_name ? `${given} ${family}`.trim()
     : payload.user_name || email.split('@')[0]` (lines 79-81). -/
def deriveName (p : Claims) (email : String) : String :=
  if jsTruthy p.given_name then
    strTrim (p.given_name.getD "" ++ " " ++ jsStr p.family_name)
  else if jsTruthy p.user_name then p.user_name.getD ""
  else localPart email

/-- `SELECT * FROM users WHERE xsuaa_subject = s LIMIT 1`. -/
def findUserBySubject (st : Store) (s : String) : Option User :=
  st.users.find? (fun u => decide (u.xsuaaSubject = some s))

/-- `SELECT * FROM users WHERE email = e LIMIT 1`. -/
def findUserByEmail (st : Store) (e : String) : Option User :=
  st.users.find? (fun u => decide (u.email = e))

/-- `SELECT * FROM sessions WHERE token = t LIMIT 1`. -/
def findSessionByToken (st : Store) (t : String) : Option Session :=
  st.sessions.find? (fun s => decide (s.token = t))

/-- `SELECT * FROM users WHERE id = i LIMIT 1`. -/
def findUserById (st : Store) (i : String) : Option User :=
  st.users.find? (fun u => decide (u.id = i))

/-- Request-scoped inputs that are not part of the store: the clock and
the freshly generated random identifiers, plus the audit headers. -/
structure FreshParams where
  now : Int
  freshUserId : String
  freshAccountId : String
  sessionToken : String
  sessionId : String
  xForwardedFor : Option String
  xRealIp : Option String
  userAgent : Option String
  deriving Repr, DecidableEq

/-- `UPDATE users SET xsuaa_subject = subj WHERE id = targetId`
(lines 102-105).  The schema has no on-update hook, so only the
`xsuaa_subject` column is written. -/
def linkUpdate (l : List User) (targetId subj : String) : List User :=
  l.map (fun v => if v.id = targetId then { v with xsuaaSubject := some subj } else v)

/-- The user row inserted by the create branch (lines 112-120). -/
def freshUser (fp : FreshParams) (email name subj : String) : User :=
  { id := fp.freshUserId
    email := email
    name := name
    emailVerified := true
    xsuaaSubject := some subj
    image := none
    createdAt := fp.now
    updatedAt := fp.now }

/-- The account row inserted by the create branch (lines 123-133);
`accessTokenExpiresAt` is `Date.now() + (tokens.expires_in || 3600) * 1000`. -/
def freshAccount (fp : FreshParams) (tokens : Tokens) (subj : String) : Account :=
  { id := fp.freshAccountId
    userId := fp.freshUserId
    accountId := subj
    providerId := "xsuaa"
    accessToken := tokens.access_token
    refreshToken := tokens.refresh_token
    accessTokenExpiresAt := some (fp.now + jsOrNum tokens.expires_in 3600 * 1000)
    createdAt := fp.now
    updatedAt := fp.now }

/-- The find-or-link-or-create block of the callback route
(lines 84-146): resolve the claims to a user row, mutating the store on
the link and create branches.  Returns the updated store and the
resolved user. -/
def resolveUser (st : Store) (subj email name : String) (tokens : Tokens)
    (fp : FreshParams) : Store × User :=
  match findUserBySubject st subj with
  | some u => (st, u)
  | none =>
    match findUserByEmail st email with
    | some ex =>
      ({ st with users := linkUpdate st.users ex.id subj },
       { ex with xsuaaSubject := some subj })
    | none =>
      ({ st with
          users := st.users ++ [freshUser fp email name subj]
          accounts := st.accounts ++ [freshAccount fp tokens subj] },
       freshUser fp email name subj)

/-- The session row inserted at lines 154-163: expiry `now + 7 days`,
IP from `x-forwarded-for || x-real-ip`. -/
def newSession (fp : FreshParams) (uid : String) : Session :=
  { id := fp.sessionId
    userId := uid
    token := fp.sessionToken
    expiresAt := fp.now + 7 * 24 * 60 * 60 * 1000
    ipAddress := jsOr fp.xForwardedFor fp.xRealIp
    userAgent := fp.userAgent
    createdAt := fp.now
    updatedAt := fp.now }

/-- Insert the minted session row for the resolved user. -/
def mintSession (st : Store) (u : User) (fp : FreshParams) : Store :=
  { st with sessions := st.sessions ++ [newSession fp u.id] }

/-- Failure of the reconciliation block.  When both `sub` and `user_id`
are absent, `xsuaaSubject` is `undefined` and the very first query
(`eq(users.xsuaaSubject, undefined)`) is rejected by the postgres
driver (no undefined-value transform is configured in the db setup)
before any write; the surrounding `try` turns it into the
`callback_failed` redirect.  That aborted-before-any-write path is the
`missingSubject` error. -/
inductive ReconcileError where
  | missingSubject
  deriving Repr, DecidableEq

/-- The reconciliation core of the callback route (lines 77-163):
derive subject/email/name from the claims, resolve-or-link-or-create
the user, and mint a session.  Returns the updated store and the
session token handed to the cookie. -/
def reconcile (st : Store) (payload : Claims) (tokens : Tokens)
    (fp : FreshParams) : Except ReconcileError (Store × String) :=
  match deriveSubject payload with
  | none => .error .missingSubject
  | some subj =>
    let email := deriveEmail payload
    let name := deriveName payload email
    let res := resolveUser st subj email name tokens fp
    .ok (mintSession res.1 res.2 fp, fp.sessionToken)

/-- Failures of the `/api/me` endpoint (all mapped to 401). -/
inductive MeError where
  | noSession
  | invalidSession
  | sessionExpired
  | userNotFound
  deriving Repr, DecidableEq

/-- The `/api/me` endpoint (`src/unnamed/part_000`): look up the session
by cookie token, reject when `new Date(session.expiresAt) < new Date()`,
then look up the owning user. -/
def resolveSession (st : Store) (cookie : Option String) (now : Int) :
    Except MeError (User × Session) :=
  if ¬ jsTruthy cookie then .error .noSession
  else
    match findSessionByToken st (cookie.getD "") with
    | none => .error .invalidSession
    | some s =>
      if s.expiresAt < now then .error .sessionExpired
      else
        match findUserById st s.userId with
        | none => .error .userNotFound
        | some u => .ok (u, s)

/-- The middleware request: the path, the `XSUAA_ENABLED` env flag, the
`authorization` header and the session cookie value. -/
structure MwRequest where
  pathname : String
  xsuaaEnabled : Bool
  authHeader : Option String
  cookieValue : Option String
  deriving Repr, DecidableEq

/-- Middleware outcome: pass through, pass through with the forwarded
`x-xsuaa-token` header, or redirect to `/login?callbackUrl=...`. -/
inductive MwResult where
  | next
  | nextWithToken (tok : String)
  | redirectLogin (callbackUrl : String)
  deriving Repr, DecidableEq

/-- `const publicRoutes = [...]` from the middleware. -/
def publicRoutes : List String :=
  ["/", "/login", "/signup", "/api/auth", "/api/health", "/api/me"]

/-- The early asset bypass of the middleware: `/_next`- and `/static`-
led paths, any path containing a dot, and `/favicon.ico`. -/
def isAssetPath (p : String) : Bool :=
  strLeads p "/_next" || strLeads p "/static" || strHasChar p '.' ||
    p = "/favicon.ico"

/-- `publicRoutes.some(route => pathname === route ||
pathname.startsWith(route + "/"))`. -/
def isPublicRoute (p : String) : Bool :=
  publicRoutes.any (fun r => p = r || strLeads p (r ++ "/"))

/-- The edge middleware (session gate) from `src/steps.md`: asset
bypass, optional XSUAA bearer-token forwarding for API paths, public
routes, then the cookie-presence check.  It takes no store: it never
performs a database lookup. -/
def middleware (req : MwRequest) : MwResult :=
  if isAssetPath req.pathname then .next
  else if req.xsuaaEnabled && jsTruthy req.authHeader &&
      strLeads req.pathname "/api/" then
    .nextWithToken (jsStr req.authHeader)
  else if isPublicRoute req.pathname then .next
  else if jsTruthy req.cookieValue then .next
  else .redirectLogin req.pathname

/-- The XSUAA service credentials the callback route reads. -/
structure XsuaaCreds where
  clientid : String
  clientsecret : String
  url : String
  deriving Repr, DecidableEq

/-- Outcome of the outbound token exchange plus id-token decoding, an
input to the handler: non-ok HTTP status, a decode/parse exception, or
the decoded tokens and claims. -/
inductive ExchangeOutcome where
  | httpError
  | decodeError
  | success (tokens : Tokens) (payload : Claims)
  deriving Repr, DecidableEq

/-- HTTP response of the callback route, abstracted: a redirect, a
redirect that also sets the session cookie, or a JSON error body. -/
inductive RouteResponse where
  | redirect (url : String)
  | redirectWithCookie (url cookieName cookieValue : String)
  | jsonError (status : Nat) (message : String)
  deriving Repr, DecidableEq

/-- Everything the callback `GET` handler reads besides the store. -/
structure CallbackRequest where
  creds : Option XsuaaCreds
  appUrl : String
  action : Option String
  code : Option String
  exchange : ExchangeOutcome
  fp : FreshParams
  deriving Repr, DecidableEq

/-- Result of one handler invocation: the response, the store after the
request, and whether the outbound token-exchange call was made. -/
structure CallbackOutcome where
  response : RouteResponse
  store : Store
  didExchange : Bool
  deriving Repr, DecidableEq

/-- The `/oauth/authorize` redirect URL built by the login branch
(query-string encoding abstracted as plain concatenation). -/
def authorizeUrl (xs : XsuaaCreds) (appUrl : String) : String :=
  xs.url ++ "/oauth/authorize?client_id=" ++ xs.clientid ++
    "&redirect_uri=" ++ appUrl ++ "/api/auth/xsuaa?action=callback" ++
    "&response_type=code&scope=openid"

/-- The callback route `GET` handler (`src/unnamed/part_002`): guard on
configured credentials, dispatch on `action`, and for `callback` run the
exchange and reconciliation inside a try/catch whose handler redirects
with `callback_failed`. -/
def callbackGET (req : CallbackRequest) (st : Store) : CallbackOutcome :=
  match req.creds with
  | none =>
    ⟨.redirect (req.appUrl ++ "/login?error=xsuaa_not_configured"), st, false⟩
  | some xs =>
    if req.action = some "login" then
      ⟨.redirect (authorizeUrl xs req.appUrl), st, false⟩
    else if req.action = some "callback" then
      if ¬ jsTruthy req.code then
        ⟨.redirect (req.appUrl ++ "/login?error=no_code"), st, false⟩
      else
        match req.exchange with
        | .httpError =>
          ⟨.redirect (req.appUrl ++ "/login?error=token_exchange_failed"), st, true⟩
        | .decodeError =>
          ⟨.redirect (req.appUrl ++ "/login?error=callback_failed"), st, true⟩
        | .success tokens payload =>
          match reconcile st payload tokens req.fp with
          | .error _ =>
            ⟨.redirect (req.appUrl ++ "/login?error=callback_failed"), st, true⟩
          | .ok (st2, tok) =>
            ⟨.redirectWithCookie (req.appUrl ++ "/dashboard")
               "better-auth.session_token" tok, st2, true⟩
    else ⟨.jsonError 400 "Invalid action", st, false⟩

/-- Is there a linked-external-account row for this (provider, user)
pair? -/
def accountExistsFor (st : Store) (provider uid : String) : Bool :=
  st.accounts.any (fun a => a.providerId = provider && a.userId = uid)

instance {ε α : Type} [DecidableEq ε] [DecidableEq α] : DecidableEq (Except ε α)
  | .error a, .error b =>
    if h : a = b then .isTrue (by rw [h]) else .isFalse (by simp [h])
  | .error _, .ok _ => .isFalse (by simp)
  | .ok _, .error _ => .isFalse (by simp)
  | .ok a, .ok b =>
    if h : a = b then .isTrue (by rw [h]) else .isFalse (by simp [h])

/-! Concrete sample data used by witnesses and counterexamples. -/

/-- Sample request-scoped fresh values. -/
def fpA : FreshParams :=
  ⟨1000, "u-new", "a-new", "sess-tok", "sess-id", none, none, none⟩

/-- A second set of fresh values (for a second login). -/
def fpB : FreshParams :=
  ⟨2000, "u-new2", "a-new2", "sess-tok2", "sess-id2", none, none, none⟩

/-- Sample token-endpoint response. -/
def tokensA : Tokens := ⟨some "at", some "rt", some 7200⟩

/-- Sample XSUAA service credentials. -/
def xsA : XsuaaCreds := ⟨"cid", "csecret", "https://uaa.example"⟩

/-- The empty store. -/
def emptyStore : Store := ⟨[], [], []⟩

/-- A local-only user (no external subject). -/
def uC2 : User := ⟨"u1", "e@x.y", "E", false, none, none, 0, 0⟩

/-- A store holding only `uC2`. -/
def stC2 : Store := ⟨[uC2], [], []⟩

/-- Claims carrying subject `s1` and the email of `uC2`. -/
def payloadC2 : Claims := ⟨some "s1", none, some "e@x.y", none, none, none⟩

/-- The store after the linking login of `payloadC2` against `stC2`. -/
def c5After : Store :=
  ⟨[{ uC2 with xsuaaSubject := some "s1" }], [], [newSession fpA "u1"]⟩

/-- A user owning the boundary session `c4Session`. -/
def c4User : User := ⟨"u1", "a@b.c", "A", true, none, none, 0, 0⟩

/-- A session whose expiry equals the probe time used below. -/
def c4Session : Session := ⟨"s1", "u1", "tok", 1000, none, none, 0, 0⟩

/-- Store for the session-boundary experiments. -/
def c4Store : Store := ⟨[c4User], [], [c4Session]⟩

/-- Claims for the name/email derivation witness. -/
def pC6 : Claims := ⟨some "subj1", none, none, some "Ada", some "Lovelace", none⟩

/-- Claims with neither `sub` nor `user_id`. -/
def pC1 : Claims := ⟨none, none, some "a@b.c", none, none, none⟩

/-- A callback request whose exchange decoded to claims without a
subject. -/
def reqC1 : CallbackRequest :=
  ⟨some xsA, "http://localhost:3000", some "callback", some "authcode",
    .success tokensA pC1, fpA⟩

/-- A callback request with an unconfigured service and a bogus
action. -/
def reqC10 : CallbackRequest :=
  ⟨none, "http://localhost:3000", some "bogus", none, .httpError, fpA⟩

/-- A configured callback request with an absent action. -/
def reqC10b : CallbackRequest :=
  ⟨some xsA, "http://localhost:3000", none, none, .httpError, fpA⟩

/-- Claims for the fresh-provisioning witness: subject only. -/
def pC3 : Claims := ⟨some "s2", none, none, none, none, some "jdoe"⟩

/-- A token-endpoint response carrying `expires_in: 0` — present but
falsy in JS. -/
def tokensZero : Tokens := ⟨some "at0", some "rt0", some 0⟩

/-! ### Theorems -/

/-- C8: every request whose path starts with `/_next` or `/static`,
contains a dot, or equals `/favicon.ico` passes the session gate
unconditionally — for any value of the env flag, the authorization
header and the session cookie, the middleware answers pass-through. -/
theorem C8_asset_paths_bypass_gate (req : MwRequest)
    (h : strLeads req.pathname "/_next" = true ∨
      strLeads req.pathname "/static" = true ∨
      strHasChar req.pathname '.' = true ∨ req.pathname = "/favicon.ico") :
    middleware req = .next := by
  have ha : isAssetPath req.pathname = true := by
    unfold isAssetPath
    rcases h with h | h | h | h <;> simp [h]
  simp [middleware, ha]

/-- Witness for C8 at a concrete asset path with the cookie absent. -/
theorem C8_asset_paths_bypass_gate_witness :
    middleware ⟨"/_next/chunk.js", true, none, none⟩ = .next :=
  C8_asset_paths_bypass_gate _ (Or.inl (by decide))

/-- C7 counterexample: `/api/data` is neither a public route nor an
asset path, the session cookie is absent, and yet with
`XSUAA_ENABLED=true` and an authorization header the gate passes the
request through instead of redirecting — so the behaviour of the gate on
non-public paths is not determined by cookie presence alone. -/
theorem C7_counterexample :
    isPublicRoute "/api/data" = false ∧ isAssetPath "/api/data" = false ∧
    middleware ⟨"/api/data", true, some "Bearer tok", none⟩ =
      .nextWithToken "Bearer tok" := by
  refine ⟨by decide, by decide, ?_⟩
  rfl

/-- C7 (amended): for a request that does not hit the asset bypass and
is not an API request carrying an authorization header while XSUAA
forwarding is enabled, the gate passes public paths through
unconditionally, and on every other path it redirects to the login
path carrying the original path as the callback parameter exactly when
the session cookie is absent (or empty), passing through whenever the
cookie is present.  The gate is a function of the request alone — it
takes no store. -/
theorem C7_gate_redirect_iff_cookie_absent (req : MwRequest)
    (hAsset : isAssetPath req.pathname = false)
    (hXs : (req.xsuaaEnabled && jsTruthy req.authHeader &&
      strLeads req.pathname "/api/") = false) :
    (isPublicRoute req.pathname = true → middleware req = .next) ∧
    (isPublicRoute req.pathname = false →
      (middleware req = .redirectLogin req.pathname ↔
        jsTruthy req.cookieValue = false) ∧
      (jsTruthy req.cookieValue = true → middleware req = .next)) := by
  refine ⟨fun hp => by simp [middleware, hAsset, hXs, hp], fun hp => ⟨?_, ?_⟩⟩
  · cases hc : jsTruthy req.cookieValue <;>
      simp [middleware, hAsset, hXs, hp, hc]
  · intro hc; simp [middleware, hAsset, hXs, hp, hc]

/-- Witness for C7 (amended) at `/dashboard`: cookie absent redirects,
cookie present passes. -/
theorem C7_gate_redirect_iff_cookie_absent_witness :
    middleware ⟨"/dashboard", false, none, none⟩ = .redirectLogin "/dashboard" ∧
    middleware ⟨"/dashboard", false, none, some "tok"⟩ = .next :=
  ⟨((C7_gate_redirect_iff_cookie_absent ⟨"/dashboard", false, none, none⟩
      (by decide) (by decide)).2 (by decide)).1.mpr (by decide),
   ((C7_gate_redirect_iff_cookie_absent ⟨"/dashboard", false, none, some "tok"⟩
      (by decide) (by decide)).2 (by decide)).2 (by decide)⟩

/-- C10 counterexample: with the XSUAA service unconfigured, a request
whose `action` is neither `login` nor `callback` is answered with the
`xsuaa_not_configured` redirect, not with a 400 JSON error body — the
credentials guard runs before the action dispatch. -/
theorem C10_counterexample :
    reqC10.action = some "bogus" ∧
    (callbackGET reqC10 emptyStore).response =
      .redirect "http://localhost:3000/login?error=xsuaa_not_configured" ∧
    (callbackGET reqC10 emptyStore).response ≠ .jsonError 400 "Invalid action" := by
  refine ⟨rfl, rfl, ?_⟩
  decide

/-- C10 (amended): when the XSUAA credentials are configured, a request
whose `action` query parameter is neither `login` nor `callback`
(including an absent one) is answered with the 400 `Invalid action`
JSON body, the store is untouched, and no token exchange is made. -/
theorem C10_invalid_action_400 (req : CallbackRequest) (st : Store)
    (xs : XsuaaCreds) (hc : req.creds = some xs)
    (h1 : req.action ≠ some "login") (h2 : req.action ≠ some "callback") :
    callbackGET req st = ⟨.jsonError 400 "Invalid action", st, false⟩ := by
  unfold callbackGET
  rw [hc]
  simp [h1, h2]

/-- Witness for C10 (amended): a configured request with no `action`. -/
theorem C10_invalid_action_400_witness :
    callbackGET reqC10b emptyStore =
      ⟨.jsonError 400 "Invalid action", emptyStore, false⟩ :=
  C10_invalid_action_400 reqC10b emptyStore xsA (by decide) (by decide) (by decide)

/-- C4 counterexample: a session whose `expiresAt` equals the current
time resolves successfully — the code expires a session only when
`expiresAt < now`, so the boundary instant is still valid, contrary to
the claim that it is invalid. -/
theorem C4_counterexample :
    c4Session.expiresAt = 1000 ∧
    resolveSession c4Store (some "tok") 1000 = .ok (c4User, c4Session) := by
  refine ⟨rfl, ?_⟩
  rfl

/-- C4 (amended): a session lookup by a matching token is treated as
valid exactly when the expiry is not strictly before the current time:
`expiresAt < now` fails with SessionExpired, and `now ≤ expiresAt`
(including equality) resolves successfully to the owning user. -/
theorem C4_session_validity_boundary (st : Store) (tok : String)
    (sess : Session) (u : User) (now : Int)
    (htok : jsTruthy (some tok) = true)
    (hfind : findSessionByToken st tok = some sess)
    (huser : findUserById st sess.userId = some u) :
    (sess.expiresAt < now →
      resolveSession st (some tok) now = .error .sessionExpired) ∧
    (now ≤ sess.expiresAt →
      resolveSession st (some tok) now = .ok (u, sess)) := by
  constructor
  · intro h
    simp [resolveSession, htok, hfind, h]
  · intro h
    simp [resolveSession, htok, hfind, huser, not_lt.mpr h]

/-- Witness for C4 (amended): the stored session with expiry 1000 is
expired at time 1001 and valid at time 999. -/
theorem C4_session_validity_boundary_witness :
    resolveSession c4Store (some "tok") 1001 = .error .sessionExpired ∧
    resolveSession c4Store (some "tok") 999 = .ok (c4User, c4Session) :=
  ⟨(C4_session_validity_boundary c4Store "tok" c4Session c4User 1001
      (by decide) (by decide) (by decide)).1 (by decide),
   (C4_session_validity_boundary c4Store "tok" c4Session c4User 999
      (by decide) (by decide) (by decide)).2 (by decide)⟩

/-- C1: for every claims payload with both `sub` and `user_id` absent,
reconciliation fails (the subject is `undefined`, which the store layer
rejects at the very first lookup, before any write) and the callback
handler leaves the store untouched: no user row inserted or updated, no
account row inserted, no session row inserted — it answers with the
`callback_failed` redirect. -/
theorem C1_missing_subject_fails_no_writes (st : Store) (req : CallbackRequest)
    (xs : XsuaaCreds) (tokens : Tokens) (payload : Claims)
    (hsub : payload.sub = none) (huid : payload.user_id = none)
    (hcreds : req.creds = some xs) (haction : req.action = some "callback")
    (hcode : jsTruthy req.code = true)
    (hex : req.exchange = .success tokens payload) :
    reconcile st payload tokens req.fp = .error .missingSubject ∧
    (callbackGET req st).store = st ∧
    (callbackGET req st).response =
      .redirect (req.appUrl ++ "/login?error=callback_failed") := by
  have hrec : reconcile st payload tokens req.fp = .error .missingSubject := by
    unfold reconcile deriveSubject jsOr
    rw [hsub, huid]
    simp [jsTruthy]
  have hcall : callbackGET req st =
      ⟨.redirect (req.appUrl ++ "/login?error=callback_failed"), st, true⟩ := by
    unfold callbackGET
    rw [hcreds]
    simp [haction, hcode, hex, hrec]
  exact ⟨hrec, by rw [hcall], by rw [hcall]⟩

/-- Witness for C1: a concrete callback whose decoded claims carry an
email but no subject. -/
theorem C1_missing_subject_fails_no_writes_witness :
    reconcile stC2 pC1 tokensA reqC1.fp = .error .missingSubject ∧
    (callbackGET reqC1 stC2).store = stC2 ∧
    (callbackGET reqC1 stC2).response =
      .redirect ("http://localhost:3000" ++ "/login?error=callback_failed") :=
  C1_missing_subject_fails_no_writes stC2 reqC1 xsA tokensA pC1
    (by decide) (by decide) (by decide) (by decide) (by decide) (by decide)

/-- C6: for every claims payload whose derived subject is present, the
derived email is `claims.email` when that claim is present (truthy) and
otherwise the subject followed by the fixed suffix `@sap.xsuaa`; the
derived display name is the trimmed interpolation of the given- and
family-name claims when the given-name claim is present, else
`claims.user_name` when present, else the part of the derived email
before the `@`. -/
theorem C6_email_and_name_derivation (p : Claims) (s : String)
    (hs : deriveSubject p = some s) :
    (jsTruthy p.email = true → deriveEmail p = p.email.getD "") ∧
    (jsTruthy p.email = false → deriveEmail p = s ++ "@sap.xsuaa") ∧
    (jsTruthy p.given_name = true →
      deriveName p (deriveEmail p) =
        strTrim (p.given_name.getD "" ++ " " ++ jsStr p.family_name)) ∧
    (jsTruthy p.given_name = false → jsTruthy p.user_name = true →
      deriveName p (deriveEmail p) = p.user_name.getD "") ∧
    (jsTruthy p.given_name = false → jsTruthy p.user_name = false →
      deriveName p (deriveEmail p) = localPart (deriveEmail p)) := by
  refine ⟨fun he => by simp [deriveEmail, he], fun he => ?_,
    fun hg => by simp [deriveName, hg], fun hg hu => by simp [deriveName, hg, hu],
    fun hg hu => by simp [deriveName, hg, hu]⟩
  simp [deriveEmail, he, hs, jsStr]

/-- Witness for C6: placeholder email from the subject, and the
given/family-name interpolation. -/
theorem C6_email_and_name_derivation_witness :
    deriveEmail pC6 = "subj1" ++ "@sap.xsuaa" ∧
    deriveName pC6 (deriveEmail pC6) = strTrim ("Ada" ++ " " ++ "Lovelace") :=
  ⟨(C6_email_and_name_derivation pC6 "subj1" (by decide)).2.1 (by decide),
   (C6_email_and_name_derivation pC6 "subj1" (by decide)).2.2.1 (by decide)⟩

/-- The row rewritten by the link update keeps its email. -/
lemma linkUpdate_row_email (v : User) (tid s : String) :
    (if v.id = tid then { v with xsuaaSubject := some s } else v).email = v.email := by
  by_cases h : v.id = tid <;> simp [h]

/-- Filtering by email commutes with the link update, since the update
never writes the email column. -/
lemma linkUpdate_filter_email (l : List User) (tid s e : String) :
    (linkUpdate l tid s).filter (fun v => decide (v.email = e)) =
      linkUpdate (l.filter (fun v => decide (v.email = e))) tid s := by
  unfold linkUpdate
  rw [List.filter_map]
  refine congrArg (List.map _) (List.filter_congr fun x _ => ?_)
  by_cases hx : x.id = tid <;> simp [Function.comp, hx]

/-- After linking subject `s` to the member `u` of a table in which no
row carried `s`, the lookup by subject `s` answers a row with the id of
`u`. -/
lemma find_subject_after_link (l : List User) (u : User) (s : String)
    (hmem : u ∈ l) (hnone : ∀ v ∈ l, v.xsuaaSubject ≠ some s) :
    ∃ w : User,
      (linkUpdate l u.id s).find? (fun v => decide (v.xsuaaSubject = some s)) =
        some w ∧ w.id = u.id ∧ w.xsuaaSubject = some s := by
  induction l with
  | nil => cases hmem
  | cons a t ih =>
    by_cases ha : a.id = u.id
    · refine ⟨{ a with xsuaaSubject := some s }, ?_, by simpa using ha, rfl⟩
      simp [linkUpdate, ha, List.find?]
    · have hu : u ∈ t := by
        rcases List.mem_cons.mp hmem with h | h
        · exact absurd (by rw [h]) ha
        · exact h
      obtain ⟨w, hw, hwid, hws⟩ :=
        ih hu (fun v hv => hnone v (List.mem_cons_of_mem _ hv))
      refine ⟨w, ?_, hwid, hws⟩
      have hpa : a.xsuaaSubject ≠ some s := hnone a (List.mem_cons_self a t)
      simp only [linkUpdate, List.map_cons, if_neg ha] at hw ⊢
      rw [List.find?_cons_of_neg _ (by simpa using hpa)]
      exact hw

/-- C2: against a store with no user for subject `s` and exactly one
user `u` for the derived email `e`, reconciliation links in place: it
answers the store whose user table is the row of `u` with the subject set
(same length, no new row, exactly one row for `e`, accounts untouched)
plus one session for `u`; and a second reconciliation against that
store with the same subject `s` resolves by subject to a row with the
same user id, leaves the user and account tables unchanged, and only
mints a second session for that same user id. -/
theorem C2_link_once_then_resolve_by_subject (st : Store)
    (payload payload2 : Claims) (tokens tokens2 : Tokens)
    (fp fp2 : FreshParams) (s e : String) (u : User)
    (hs : deriveSubject payload = some s)
    (he : deriveEmail payload = e)
    (hs2 : deriveSubject payload2 = some s)
    (hnosub : findUserBySubject st s = none)
    (hfind : findUserByEmail st e = some u)
    (hone : st.users.filter (fun v => decide (v.email = e)) = [u]) :
    reconcile st payload tokens fp =
      .ok (⟨linkUpdate st.users u.id s, st.accounts,
            st.sessions ++ [newSession fp u.id]⟩, fp.sessionToken) ∧
    (linkUpdate st.users u.id s).length = st.users.length ∧
    (linkUpdate st.users u.id s).filter (fun v => decide (v.email = e)) =
      [{ u with xsuaaSubject := some s }] ∧
    ∃ w : User, w.id = u.id ∧
      findUserBySubject ⟨linkUpdate st.users u.id s, st.accounts,
        st.sessions ++ [newSession fp u.id]⟩ s = some w ∧
      reconcile ⟨linkUpdate st.users u.id s, st.accounts,
          st.sessions ++ [newSession fp u.id]⟩ payload2 tokens2 fp2 =
        .ok (⟨linkUpdate st.users u.id s, st.accounts,
              (st.sessions ++ [newSession fp u.id]) ++ [newSession fp2 u.id]⟩,
          fp2.sessionToken) := by
  have h1 : reconcile st payload tokens fp =
      .ok (⟨linkUpdate st.users u.id s, st.accounts,
            st.sessions ++ [newSession fp u.id]⟩, fp.sessionToken) := by
    simp only [reconcile, hs, he, resolveUser, hnosub, hfind]
    rfl
  have hall : ∀ v ∈ st.users, v.xsuaaSubject ≠ some s := by
    intro v hv
    have := List.find?_eq_none.mp hnosub v hv
    simpa using this
  obtain ⟨w, hw, hwid, hws⟩ :=
    find_subject_after_link st.users u s (List.mem_of_find?_eq_some hfind) hall
  refine ⟨h1, by simp [linkUpdate], ?_, w, hwid, hw, ?_⟩
  · rw [linkUpdate_filter_email, hone]
    simp [linkUpdate]
  · simp only [reconcile, hs2, resolveUser, findUserBySubject, hw]
    simp only [mintSession, newSession, hwid]

/-- Witness for C2: the local user `uC2` acquires subject `s1`, and a
second login with `s1` resolves to the same id, adding only a session. -/
theorem C2_link_once_then_resolve_by_subject_witness :
    reconcile stC2 payloadC2 tokensA fpA =
      .ok (⟨linkUpdate stC2.users uC2.id "s1", stC2.accounts,
            stC2.sessions ++ [newSession fpA uC2.id]⟩, fpA.sessionToken) ∧
    (linkUpdate stC2.users uC2.id "s1").length = stC2.users.length ∧
    (linkUpdate stC2.users uC2.id "s1").filter
        (fun v => decide (v.email = "e@x.y")) =
      [{ uC2 with xsuaaSubject := some "s1" }] ∧
    ∃ w : User, w.id = uC2.id ∧
      findUserBySubject ⟨linkUpdate stC2.users uC2.id "s1", stC2.accounts,
        stC2.sessions ++ [newSession fpA uC2.id]⟩ "s1" = some w ∧
      reconcile ⟨linkUpdate stC2.users uC2.id "s1", stC2.accounts,
          stC2.sessions ++ [newSession fpA uC2.id]⟩ payloadC2 tokensA fpB =
        .ok (⟨linkUpdate stC2.users uC2.id "s1", stC2.accounts,
              (stC2.sessions ++ [newSession fpA uC2.id]) ++
                [newSession fpB uC2.id]⟩, fpB.sessionToken) :=
  C2_link_once_then_resolve_by_subject stC2 payloadC2 payloadC2 tokensA tokensA
    fpA fpB "s1" "e@x.y" uC2 (by decide) (by decide) (by decide) (by decide)
    (by decide) (by decide)

/-- C3 counterexample: a provider response carrying `expires_in: 0` —
present, not omitted — makes the provisioning path store an
access-token expiry of `now + 3600` seconds, not `now + 0`: the code
computes `(tokens.expires_in || 3600)` and `0` is falsy in JS, so the
claimed formula `now + expires_in` fails at this input. -/
theorem C3_counterexample :
    tokensZero.expires_in = some 0 ∧
    reconcile emptyStore pC3 tokensZero fpA =
      .ok (⟨[freshUser fpA "s2@sap.xsuaa" (deriveName pC3 "s2@sap.xsuaa") "s2"],
            [freshAccount fpA tokensZero "s2"], [newSession fpA "u-new"]⟩,
        "sess-tok") ∧
    (freshAccount fpA tokensZero "s2").accessTokenExpiresAt =
      some (fpA.now + 3600 * 1000) ∧
    (freshAccount fpA tokensZero "s2").accessTokenExpiresAt ≠
      some (fpA.now + 0 * 1000) := by
  refine ⟨rfl, rfl, rfl, ?_⟩
  decide

/-- C3 (amended): against a store with no user for the subject and none
for the derived email, reconciliation inserts exactly one user row —
email verified — and exactly one account row for provider `xsuaa`
carrying the exchanged tokens, whose access-token expiry is
`now + expires_in` seconds when `expires_in` is present and nonzero,
and `now + 3600` seconds when the provider omits `expires_in` or sends
the (JS-falsy) value 0. -/
theorem C3_fresh_provisioning (st : Store) (payload : Claims)
    (tokens : Tokens) (fp : FreshParams) (s e : String)
    (hs : deriveSubject payload = some s)
    (he : deriveEmail payload = e)
    (hnosub : findUserBySubject st s = none)
    (hnoemail : findUserByEmail st e = none) :
    reconcile st payload tokens fp =
      .ok (⟨st.users ++ [freshUser fp e (deriveName payload e) s],
            st.accounts ++ [freshAccount fp tokens s],
            st.sessions ++ [newSession fp fp.freshUserId]⟩, fp.sessionToken) ∧
    (freshUser fp e (deriveName payload e) s).emailVerified = true ∧
    (freshAccount fp tokens s).providerId = "xsuaa" ∧
    (freshAccount fp tokens s).accessToken = tokens.access_token ∧
    (freshAccount fp tokens s).refreshToken = tokens.refresh_token ∧
    (tokens.expires_in = none ∨ tokens.expires_in = some 0 →
      (freshAccount fp tokens s).accessTokenExpiresAt =
        some (fp.now + 3600 * 1000)) ∧
    (∀ v : Int, tokens.expires_in = some v → v ≠ 0 →
      (freshAccount fp tokens s).accessTokenExpiresAt =
        some (fp.now + v * 1000)) := by
  refine ⟨?_, rfl, rfl, rfl, rfl, ?_, ?_⟩
  · simp only [reconcile, hs, he, resolveUser, hnosub, hnoemail]
    rfl
  · rintro (h | h) <;> simp [freshAccount, jsOrNum, h]
  · intro v hv hnz
    simp [freshAccount, jsOrNum, hv, hnz]

/-- Witness for C3: provisioning the fresh subject `s2` into the empty
store. -/
theorem C3_fresh_provisioning_witness :
    reconcile emptyStore pC3 tokensA fpA =
      .ok (⟨emptyStore.users ++
              [freshUser fpA "s2@sap.xsuaa" (deriveName pC3 "s2@sap.xsuaa") "s2"],
            emptyStore.accounts ++ [freshAccount fpA tokensA "s2"],
            emptyStore.sessions ++ [newSession fpA fpA.freshUserId]⟩,
        fpA.sessionToken) ∧
    (freshUser fpA "s2@sap.xsuaa" (deriveName pC3 "s2@sap.xsuaa") "s2").emailVerified
      = true ∧
    (freshAccount fpA tokensA "s2").providerId = "xsuaa" ∧
    (freshAccount fpA tokensA "s2").accessToken = tokensA.access_token ∧
    (freshAccount fpA tokensA "s2").refreshToken = tokensA.refresh_token ∧
    (tokensA.expires_in = none ∨ tokensA.expires_in = some 0 →
      (freshAccount fpA tokensA "s2").accessTokenExpiresAt =
        some (fpA.now + 3600 * 1000)) ∧
    (∀ v : Int, tokensA.expires_in = some v → v ≠ 0 →
      (freshAccount fpA tokensA "s2").accessTokenExpiresAt =
        some (fpA.now + v * 1000)) :=
  C3_fresh_provisioning emptyStore pC3 tokensA fpA "s2" "s2@sap.xsuaa"
    (by decide) (by decide) (by decide) (by decide)

/-- C5 counterexample: the first successful SSO login of the existing
local user `uC2` (linked by email) completes, yet the resulting store
has no linked-external-account row at all — the link branch never
inserts one, so the claimed invariant fails for linked users. -/
theorem C5_counterexample :
    reconcile stC2 payloadC2 tokensA fpA = .ok (c5After, "sess-tok") ∧
    accountExistsFor c5After "xsuaa" "u1" = false := by
  exact ⟨rfl, rfl⟩

/-- C5 (amended): after a first successful SSO login that provisions a
new user, a linked-external-account row for (provider `xsuaa`, that
user) exists; the link-by-email branch inserts no such row. -/
theorem C5_account_row_after_provisioning (st : Store) (payload : Claims)
    (tokens : Tokens) (fp : FreshParams) (s e : String)
    (hs : deriveSubject payload = some s)
    (he : deriveEmail payload = e)
    (hnosub : findUserBySubject st s = none)
    (hnoemail : findUserByEmail st e = none) :
    reconcile st payload tokens fp =
      .ok (⟨st.users ++ [freshUser fp e (deriveName payload e) s],
            st.accounts ++ [freshAccount fp tokens s],
            st.sessions ++ [newSession fp fp.freshUserId]⟩, fp.sessionToken) ∧
    accountExistsFor
      ⟨st.users ++ [freshUser fp e (deriveName payload e) s],
        st.accounts ++ [freshAccount fp tokens s],
        st.sessions ++ [newSession fp fp.freshUserId]⟩ "xsuaa" fp.freshUserId
      = true := by
  constructor
  · simp only [reconcile, hs, he, resolveUser, hnosub, hnoemail]
    rfl
  · simp [accountExistsFor, freshAccount]

/-- Witness for C5 (amended): provisioning `s2` into the empty store
leaves an `xsuaa` account row for the new user. -/
theorem C5_account_row_after_provisioning_witness :
    reconcile emptyStore pC3 tokensA fpA =
      .ok (⟨emptyStore.users ++
              [freshUser fpA "s2@sap.xsuaa" (deriveName pC3 "s2@sap.xsuaa") "s2"],
            emptyStore.accounts ++ [freshAccount fpA tokensA "s2"],
            emptyStore.sessions ++ [newSession fpA fpA.freshUserId]⟩,
        fpA.sessionToken) ∧
    accountExistsFor
      ⟨emptyStore.users ++
          [freshUser fpA "s2@sap.xsuaa" (deriveName pC3 "s2@sap.xsuaa") "s2"],
        emptyStore.accounts ++ [freshAccount fpA tokensA "s2"],
        emptyStore.sessions ++ [newSession fpA fpA.freshUserId]⟩ "xsuaa"
      fpA.freshUserId = true :=
  C5_account_row_after_provisioning emptyStore pC3 tokensA fpA "s2" "s2@sap.xsuaa"
    (by decide) (by decide) (by decide) (by decide)

/-- C9: the link branch — found by email after a subject miss — changes
only the external-subject column of the found user: the account and
session tables are returned as they were, every user row at a different
id is returned unchanged at its position, the row (or rows) at the
found id only gain the subject, and the subject rewrite preserves id,
email, name, emailVerified, image and both timestamps. -/
theorem C9_link_updates_only_subject (st : Store) (subj email name : String)
    (tokens : Tokens) (fp : FreshParams) (u : User)
    (hnosub : findUserBySubject st subj = none)
    (hfind : findUserByEmail st email = some u) :
    resolveUser st subj email name tokens fp =
      (⟨linkUpdate st.users u.id subj, st.accounts, st.sessions⟩,
        { u with xsuaaSubject := some subj }) ∧
    (∀ i : Nat, ∀ v : User, st.users[i]? = some v → v.id ≠ u.id →
      (linkUpdate st.users u.id subj)[i]? = some v) ∧
    (∀ i : Nat, ∀ v : User, st.users[i]? = some v → v.id = u.id →
      (linkUpdate st.users u.id subj)[i]? =
        some { v with xsuaaSubject := some subj }) ∧
    (∀ v : User,
      ({ v with xsuaaSubject := some subj } : User).id = v.id ∧
      ({ v with xsuaaSubject := some subj } : User).email = v.email ∧
      ({ v with xsuaaSubject := some subj } : User).name = v.name ∧
      ({ v with xsuaaSubject := some subj } : User).emailVerified =
        v.emailVerified ∧
      ({ v with xsuaaSubject := some subj } : User).image = v.image ∧
      ({ v with xsuaaSubject := some subj } : User).createdAt = v.createdAt ∧
      ({ v with xsuaaSubject := some subj } : User).updatedAt = v.updatedAt) := by
  refine ⟨?_, ?_, ?_, fun v => ⟨rfl, rfl, rfl, rfl, rfl, rfl, rfl⟩⟩
  · unfold resolveUser
    rw [hnosub, hfind]
  · intro i v hv hne
    simp [linkUpdate, List.getElem?_map, hv, hne]
  · intro i v hv heq
    simp [linkUpdate, List.getElem?_map, hv, heq]

/-- Witness for C9: linking subject `s1` onto `uC2`. -/
theorem C9_link_updates_only_subject_witness :
    resolveUser stC2 "s1" "e@x.y" "E2" tokensA fpA =
      (⟨linkUpdate stC2.users uC2.id "s1", stC2.accounts, stC2.sessions⟩,
        { uC2 with xsuaaSubject := some "s1" }) :=
  (C9_link_updates_only_subject stC2 "s1" "e@x.y" "E2" tokensA fpA uC2
    (by decide) (by decide)).1

end XsuaaAdmin
